import Mathlib

/-
Verification development for the control-panel device sync client
(source file: the main script of the repository).

The script is a single-threaded event-loop program; every operation we
verify mutates three pieces of module-level state: the string
`masterStatus`, the record map `deviceData`, and the bounded list `logs`.
We embed the state as an explicit structure and each operation as a pure
function from the state and the outcome of its network requests to the
new state, the returned value, and the ordered list of addLog calls the
operation performs.  Network request outcomes (success body, HTTP error,
transport error) are inputs to the functions, since the server is an
external collaborator.  DOM updates (updateMasterStatus,
updateOverviewDisplay and friends) are pure display code and are not
modelled; the loading CSS class that sendDeviceCommand toggles on the
device page is modelled as a per-device boolean marker.
-/

namespace ControlPanel

/-- Configuration object of the script (the CONFIG literal at its top). -/
structure Config where
  masterDeviceUrl : String
  updateInterval : Nat
  logMaxEntries : Nat
  authToken : Option String
  timeout : Nat
deriving DecidableEq

/-- The concrete CONFIG value from the source. -/
def CONFIG : Config :=
  { masterDeviceUrl := "http://localhost:8080"
    updateInterval := 5000
    logMaxEntries := 100
    authToken := none
    timeout := 10000 }

/-- JavaScript string-or ( a || b ) for an optional string: the left side
is taken when present and non-empty (truthy), the default otherwise. -/
def strOr (o : Option String) (d : String) : String :=
  match o with
  | some s => if s = "" then d else s
  | none => d

/-- JavaScript truthiness of an optional string value. -/
def truthyStr (o : Option String) : Bool :=
  match o with
  | some s => s != ""
  | none => false

/-- An instance reported by a device (entries of the instances arrays). -/
structure InstanceRecord where
  id : String
  name : Option String
  status : String
  details : Option String
deriving DecidableEq

/-- One entry of the deviceData registry. -/
structure DeviceRecord where
  id : String
  name : String
  status : String
  endpoint : String
  type : String
  instances : List InstanceRecord
  lastSeen : Option String
  capabilities : List String
deriving DecidableEq

/-- The four fixed keys of the deviceData object literal. -/
inductive DeviceKey where
  | keylogger
  | keystroke_injector
  | ethernet_tap
  | evil_twin
deriving DecidableEq

/-- The keys of a device_info object of a status response that collide
with the fields of the client record managed by the sync code.  The
script merges device_info into the record with Object.assign, so a key
present here overwrites the corresponding record field; keys of
device_info other than these land in fields the sync code never reads,
and are not tracked.  A field is none when the key is absent. -/
structure DeviceInfo where
  status : Option String
  lastSeen : Option String
  instances : Option (List InstanceRecord)
deriving DecidableEq

/-- Body of a status response, shape per the external interface:
status, last_seen, instances, device_info, and the error field that
the client itself fills in for synthetic failure results. -/
structure StatusResponse where
  status : Option String
  last_seen : Option String
  instances : Option (List InstanceRecord)
  device_info : Option DeviceInfo
  error : Option String
deriving DecidableEq

/-- Outcome of one status fetch for one device: a parsed 2xx body, a
non-2xx response (carrying its statusText), or a thrown transport
error (carrying its message). -/
inductive FetchOutcome where
  | ok (resp : StatusResponse)
  | httpErr (statusText : String)
  | netErr (msg : String)
deriving DecidableEq

/-- The initial deviceData registry from the object literal at the top
of the script. -/
def initDeviceData : DeviceKey → DeviceRecord
  | .keylogger =>
    { id := "device1", name := "Keylogger", status := "offline"
      endpoint := "/keylogger", type := "keylogger", instances := []
      lastSeen := none
      capabilities := ["start_logging", "stop_logging", "download_logs", "clear_buffer"] }
  | .keystroke_injector =>
    { id := "device2", name := "Keystroke Injector", status := "offline"
      endpoint := "/keystroke-injector", type := "keystroke_injector", instances := []
      lastSeen := none
      capabilities := ["inject_payload", "load_script", "stop_injection", "list_payloads"] }
  | .ethernet_tap =>
    { id := "device3", name := "Ethernet Tap", status := "offline"
      endpoint := "/ethernet-tap", type := "ethernet_tap", instances := []
      lastSeen := none
      capabilities := ["start_capture", "stop_capture", "download_pcap", "monitor_mode"] }
  | .evil_twin =>
    { id := "device4", name := "Evil Twin AP", status := "offline"
      endpoint := "/evil-twin", type := "evil_twin", instances := []
      lastSeen := none
      capabilities := ["start_ap", "stop_ap", "view_clients", "deauth_clients", "clone_network"] }

/-- Resolution of a deviceType string against the own keys of the
deviceData literal.  The source reads deviceData[deviceType], which
also consults the prototype chain; that part of the lookup is modelled
by inheritedMember at the calling sites. -/
def lookupDevice (s : String) : Option DeviceKey :=
  if s = "keylogger" then some .keylogger
  else if s = "keystroke_injector" then some .keystroke_injector
  else if s = "ethernet_tap" then some .ethernet_tap
  else if s = "evil_twin" then some .evil_twin
  else none

/-- The member names deviceData inherits from Object.prototype: for
these strings deviceData[deviceType] yields a truthy value (a function,
or an object for constructor and for the proto accessor) even though
they are not keys of the registry, so the falsiness check of the source
does not fire on them. -/
def inheritedMember (s : String) : Bool :=
  s ∈ ["constructor", "hasOwnProperty", "isPrototypeOf", "propertyIsEnumerable",
       "toLocaleString", "toString", "valueOf", "__defineGetter__", "__defineSetter__",
       "__lookupGetter__", "__lookupSetter__", "__proto__"]

/-- What the template interpolation of device.name produces when the
looked-up device is an inherited Object.prototype member: the name
property of the inherited function (its own name), the name of the
Object constructor for the constructor key, and the string undefined
for the proto accessor, whose value is a plain object without a name
property. -/
def inheritedName (s : String) : String :=
  if s = "constructor" then "Object"
  else if s = "__proto__" then "undefined"
  else s

/-- The inherited Object.prototype member, viewed through the device
record fields the source reads off it.  Every field except name is the
JS value undefined; string fields hold the string its interpolation
produces, the status field in particular is never equal to online, and
the id is undefined so the page element lookup yields null. -/
def inheritedDeviceView (s : String) : DeviceRecord :=
  { id := "undefined", name := inheritedName s, status := "undefined"
    endpoint := "undefined", type := "undefined", instances := []
    lastSeen := none, capabilities := [] }

/-- Pointwise update of the registry at one key. -/
def setDevice (ds : DeviceKey → DeviceRecord) (k : DeviceKey) (d : DeviceRecord) :
    DeviceKey → DeviceRecord :=
  fun j => if j = k then d else ds j

/-- Pointwise update of the per-device busy markers. -/
def setBusy (b : DeviceKey → Bool) (k : DeviceKey) (v : Bool) : DeviceKey → Bool :=
  fun j => if j = k then v else b j

/-- The module-level mutable state the verified operations touch:
masterStatus, deviceData, and the loading marker of each device page. -/
structure AppState where
  masterStatus : String
  deviceData : DeviceKey → DeviceRecord
  busy : DeviceKey → Bool

/-- State at script start: master disconnected, the literal registry,
no page marked loading. -/
def initialState : AppState :=
  { masterStatus := "disconnected", deviceData := initDeviceData, busy := fun _ => false }

/-- A state in which the initial connection probe has succeeded. -/
def connectedState : AppState :=
  { initialState with masterStatus := "connected" }

/-- One addLog call: the message and the severity string passed to it. -/
structure LogEvent where
  message : String
  type : String
deriving DecidableEq

/-- A stored entry of the logs array.  addLog builds timestamp and id
from the clock; they are inputs of the model. -/
structure LogEntry where
  timestamp : String
  message : String
  type : String
  id : Nat
deriving DecidableEq

/-- The addLog insertion on the logs array: unshift the new entry, then
slice the array down to CONFIG.logMaxEntries when it got longer. -/
def addLog (logs : List LogEntry) (entry : LogEntry) : List LogEntry :=
  let l := entry :: logs
  if CONFIG.logMaxEntries < l.length then l.take CONFIG.logMaxEntries else l

/-- Outcome of one health probe of checkMasterConnection: a 2xx response
with a parseable body, or any failure (non-2xx, network error, timeout,
unparseable body) with the error message. -/
inductive HealthOutcome where
  | success
  | failure (msg : String)
deriving DecidableEq

/-- checkMasterConnection: on success set masterStatus to connected, log
an establishment entry and return true; on any failure set it to
disconnected, log the failure and return false.  Returns the value, the
new state and the addLog calls made. -/
def checkMasterConnection (st : AppState) (o : HealthOutcome) :
    Bool × AppState × List LogEvent :=
  match o with
  | .success =>
    (true, { st with masterStatus := "connected" },
      [{ message := "Master device connection established", type := "success" }])
  | .failure m =>
    (false, { st with masterStatus := "disconnected" },
      [{ message := "Master device connection failed: " ++ m, type := "error" }])

/-- The synthetic status object the per-device catch branches of
getAllDevicesStatus build for a failed fetch. -/
def statusFailureResponse (reason : String) : StatusResponse :=
  { status := some "offline", last_seen := none, instances := none
    device_info := none, error := some reason }

/-- The per-device result of the status request map in
getAllDevicesStatus: the response body to merge and the success flag
(the flag is carried in the source but never read afterwards). -/
def statusResultFor : FetchOutcome → StatusResponse × Bool
  | .ok r => (r, true)
  | .httpErr s => (statusFailureResponse s, false)
  | .netErr m => (statusFailureResponse m, false)

/-- The per-device merge step of getAllDevicesStatus: replace status
(falling back to offline), keep lastSeen unless the response carries a
truthy last_seen, replace instances with the fetched list or the empty
list, log one transition entry when the stored status changed, and
finally Object.assign the device_info keys over the record.  Returns
the new record and the addLog calls made. -/
def updateDeviceFromStatus (d : DeviceRecord) (resp : StatusResponse) :
    DeviceRecord × List LogEvent :=
  let newStatus := strOr resp.status "offline"
  let newLastSeen := if truthyStr resp.last_seen then resp.last_seen else d.lastSeen
  let d1 : DeviceRecord :=
    { d with status := newStatus, lastSeen := newLastSeen, instances := resp.instances.getD [] }
  let events : List LogEvent :=
    if d.status ≠ d1.status then
      [{ message := d.name ++ ": Status changed from " ++ d.status ++ " to " ++ d1.status
         type := if d1.status = "online" then "success" else "warning" }]
    else []
  let d2 : DeviceRecord :=
    match resp.device_info with
    | some di =>
      { d1 with status := di.status.getD d1.status
                lastSeen := if di.lastSeen.isSome then di.lastSeen else d1.lastSeen
                instances := di.instances.getD d1.instances }
    | none => d1
  (d2, events)

/-- The instance list a status response carries, as merged by
getAllDevicesStatus: the device_info instances key when present
(Object.assign runs last), otherwise the top-level instances field,
otherwise the empty list. -/
def fetchedInstances (resp : StatusResponse) : List InstanceRecord :=
  match resp.device_info with
  | some di => di.instances.getD (resp.instances.getD [])
  | none => resp.instances.getD []

/-- Whether a status response supplies a replacement for lastSeen: a
truthy top-level last_seen, or a lastSeen key inside device_info. -/
def suppliesLastSeen (resp : StatusResponse) : Bool :=
  truthyStr resp.last_seen || (Option.bind resp.device_info DeviceInfo.lastSeen).isSome

/-- Iteration order of Object.entries over the deviceData literal. -/
def deviceKeys : List DeviceKey :=
  [.keylogger, .keystroke_injector, .ethernet_tap, .evil_twin]

/-- getAllDevicesStatus: bail out returning false when the master is not
connected; otherwise fetch every device status (each request failing
independently into a synthetic offline result), merge each result into
its device record, and return true.  The outcome of each request is an
input.  The outer catch of the source is unreachable here because every
per-request failure is already caught inside the map. -/
def getAllDevicesStatus (st : AppState) (outcomes : DeviceKey → FetchOutcome) :
    Bool × AppState × List LogEvent :=
  if st.masterStatus ≠ "connected" then (false, st, [])
  else
    let step := fun (acc : (DeviceKey → DeviceRecord) × List LogEvent) (k : DeviceKey) =>
      let r := (statusResultFor (outcomes k)).1
      let u := updateDeviceFromStatus (acc.1 k) r
      (setDevice acc.1 k u.1, acc.2 ++ u.2)
    let folded := deviceKeys.foldl step (st.deviceData, [])
    (true, { st with deviceData := folded.1 }, folded.2)

/-- The merge step of refreshSingleDevice on a 2xx response: replace
status, lastSeen (with fallback) and instances exactly as the bulk sync
does, log one entry when the status changed; device_info is ignored by
this function in the source. -/
def refreshApply (d : DeviceRecord) (resp : StatusResponse) :
    DeviceRecord × List LogEvent :=
  let newStatus := strOr resp.status "offline"
  let newLastSeen := if truthyStr resp.last_seen then resp.last_seen else d.lastSeen
  let d1 : DeviceRecord :=
    { d with status := newStatus, lastSeen := newLastSeen, instances := resp.instances.getD [] }
  let events : List LogEvent :=
    if d.status ≠ d1.status then
      [{ message := d.name ++ ": Status updated to " ++ d1.status
         type := if d1.status = "online" then "success" else "warning" }]
    else []
  (d1, events)

/-- refreshSingleDevice: look the device up, fetch its status, and on a
2xx response merge it and return true; on a falsy lookup, a non-2xx
response (the source falls through and returns undefined, a falsy
value) or a transport error, leave the state untouched.  A deviceType
naming an inherited Object.prototype member passes the falsiness check:
on a 2xx response the source then writes the fetched fields onto that
inherited object — the registry records stay untouched — and, the old
status being undefined and thus different from any fetched string, it
always logs one status-updated entry under the inherited member's
name. -/
def refreshSingleDevice (st : AppState) (deviceType : String) (o : FetchOutcome) :
    Bool × AppState × List LogEvent :=
  match lookupDevice deviceType with
  | none =>
    if inheritedMember deviceType then
      match o with
      | .ok resp =>
        (true, st,
          [{ message := inheritedName deviceType ++ ": Status updated to " ++
                        strOr resp.status "offline"
             type := if strOr resp.status "offline" = "online" then "success"
                     else "warning" }])
      | .httpErr _ => (false, st, [])
      | .netErr _ => (false, st, [])
    else (false, st, [])
  | some k =>
    match o with
    | .ok resp =>
      let u := refreshApply (st.deviceData k) resp
      (true, { st with deviceData := setDevice st.deviceData k u.1 }, u.2)
    | .httpErr _ => (false, st, [])
    | .netErr _ => (false, st, [])

/-- Body of a command response, with the fields the client reads:
error, download_url, filename, clients, payloads. -/
structure CmdResponse where
  error : Option String
  download_url : Option String
  filename : Option String
  clients : Option (List String)
  payloads : Option (List String)
deriving DecidableEq

/-- Return value of sendDeviceCommand.  The source returns the parsed
result object on success and the value false at four distinct exit
points; each non-success constructor names one of those exit points. -/
inductive CmdResult where
  | notConnected
  | unknownDevice
  | deviceOffline
  | commandFailed
  | ok (r : CmdResponse)
deriving DecidableEq

/-- A sendDeviceCommand call succeeded exactly when it returned the
parsed result object rather than false. -/
def CmdResult.isSuccess : CmdResult → Bool
  | .ok _ => true
  | _ => false

/-- Outcome of the command fetch in sendDeviceCommand.  On a 2xx
response the two flags model a throw out of handleCommandResponse or
out of the scheduling of the follow-up refresh (both run inside the
try block, so a throw lands in the catch); they carry the thrown error
message.  A non-2xx response carries the parsed body and statusText; a
rejected body parse or a transport error carries its message. -/
inductive CmdOutcome where
  | ok (result : CmdResponse) (handlerThrow : Option String) (scheduleThrow : Option String)
  | httpErr (result : CmdResponse) (statusText : String)
  | jsonThrow (msg : String)
  | netThrow (msg : String)
deriving DecidableEq

/-- The two addLog calls of the catch branch of sendDeviceCommand (the
direct one and the one showNotification performs). -/
def sendCatchEvents (name command msg : String) : List LogEvent :=
  [{ message := name ++ ": " ++ command ++ " failed - " ++ msg, type := "error" },
   { message := "Command failed: " ++ msg, type := "error" }]

/-- handleCommandResponse: the addLog calls made for command-specific
response handling (the DOM link click of a download is not modelled). -/
def handleCommandResponse (device : DeviceRecord) (command : String) (result : CmdResponse) :
    List LogEvent :=
  if command = "download_logs" ∨ command = "download_pcap" then
    if truthyStr result.download_url then
      [{ message := device.name ++ ": Download started", type := "success" }]
    else []
  else if command = "view_clients" then
    match result.clients with
    | some cs =>
      [{ message := device.name ++ ": " ++ toString cs.length ++ " clients connected"
         type := "info" }]
    | none => []
  else if command = "list_payloads" then
    match result.payloads with
    | some ps =>
      [{ message := device.name ++ ": " ++ toString ps.length ++ " payloads available"
         type := "info" }]
    | none => []
  else []

/-- Everything a sendDeviceCommand call produced: the returned value,
the new state, the addLog calls in order, whether the command fetch was
issued, whether the loading marker was set (the device page element
must exist for that, which the pageExists input models), whether the
follow-up refresh got scheduled, and the registry key the deviceType
resolved to. -/
structure SendResult where
  ret : CmdResult
  state : AppState
  events : List LogEvent
  requestSent : Bool
  busySet : Bool
  refreshScheduled : Bool
  target : Option DeviceKey

/-- The try-block body of sendDeviceCommand from the initial info entry
onward, for a given looked-up device: the returned value, the addLog
calls, and whether the follow-up refresh got scheduled, for each fetch
outcome (a throw out of the handler or the scheduling lands in the
catch branch). -/
def commandBody (device : DeviceRecord) (command : String) (outcome : CmdOutcome) :
    CmdResult × List LogEvent × Bool :=
  let ev0 : List LogEvent :=
    [{ message := "Sending " ++ command ++ " command to " ++ device.name
       type := "info" }]
  match outcome with
  | .ok result handlerThrow scheduleThrow =>
    let evOk := ev0 ++
      [{ message := device.name ++ ": " ++ command ++ " executed successfully"
         type := "success" },
       { message := command ++ " sent to " ++ device.name, type := "success" }]
    match handlerThrow with
    | some m => (.commandFailed, evOk ++ sendCatchEvents device.name command m, false)
    | none =>
      let evH := evOk ++ handleCommandResponse device command result
      match scheduleThrow with
      | some m => (.commandFailed, evH ++ sendCatchEvents device.name command m, false)
      | none => (.ok result, evH, true)
  | .httpErr result statusText =>
    let m := strOr result.error ("Command failed: " ++ statusText)
    (.commandFailed, ev0 ++ sendCatchEvents device.name command m, false)
  | .jsonThrow m =>
    (.commandFailed, ev0 ++ sendCatchEvents device.name command m, false)
  | .netThrow m =>
    (.commandFailed, ev0 ++ sendCatchEvents device.name command m, false)

/-- sendDeviceCommand: check the master connection, look the device up
(the lookup consults the prototype chain, so an inherited
Object.prototype member name passes the falsiness check and is treated
as a device whose fields are undefined: its status is never online,
and its page element never exists since its id is undefined), check the
online precondition against the refresh/reconnect allowlist, then
dispatch the command fetch inside try/catch/finally; the finally branch
removes the loading marker on every path. -/
def sendDeviceCommand (st : AppState) (deviceType command : String)
    (pageExists : Bool) (outcome : CmdOutcome) : SendResult :=
  if st.masterStatus ≠ "connected" then
    { ret := .notConnected, state := st
      events :=
        [{ message := "Cannot send command: Master device not connected", type := "error" },
         { message := "Master device not connected", type := "error" }]
      requestSent := false, busySet := false, refreshScheduled := false, target := none }
  else
    match lookupDevice deviceType with
    | none =>
      if inheritedMember deviceType then
        let device := inheritedDeviceView deviceType
        if device.status ≠ "online" ∧ ¬(command = "refresh" ∨ command = "reconnect") then
          { ret := .deviceOffline, state := st
            events :=
              [{ message := "Cannot send " ++ command ++ " to " ++ device.name ++
                            ": Device is offline"
                 type := "warning" },
               { message := device.name ++ " is offline", type := "warning" }]
            requestSent := false, busySet := false, refreshScheduled := false
            target := none }
        else
          let body := commandBody device command outcome
          { ret := body.1, state := st, events := body.2.1, requestSent := true
            busySet := false, refreshScheduled := body.2.2, target := none }
      else
        { ret := .unknownDevice, state := st
          events := [{ message := "Unknown device type: " ++ deviceType, type := "error" }]
          requestSent := false, busySet := false, refreshScheduled := false, target := none }
    | some k =>
      let device := st.deviceData k
      if device.status ≠ "online" ∧ ¬(command = "refresh" ∨ command = "reconnect") then
        { ret := .deviceOffline, state := st
          events :=
            [{ message := "Cannot send " ++ command ++ " to " ++ device.name ++
                          ": Device is offline"
               type := "warning" },
             { message := device.name ++ " is offline", type := "warning" }]
          requestSent := false, busySet := false, refreshScheduled := false
          target := some k }
      else
        let busy1 := if pageExists then setBusy st.busy k true else st.busy
        let body := commandBody device command outcome
        let busyFinal := if pageExists then setBusy busy1 k false else busy1
        { ret := body.1, state := { st with busy := busyFinal }
          events := body.2.1, requestSent := true, busySet := pageExists
          refreshScheduled := body.2.2, target := some k }

/-- A sample log entry (timestamp and id are arbitrary inputs). -/
def logEntryA : LogEntry :=
  { timestamp := "10:30:00", message := "sample", type := "info", id := 0 }

/-- A status response reporting the device online with a fresh
last_seen and an empty instance list. -/
def onlineResp : StatusResponse :=
  { status := some "online", last_seen := some "2024-09-22T10:30:00Z"
    instances := some [], device_info := none, error := none }

/-- A status response whose top-level status says offline while its
device_info carries a status key saying online: the Object.assign merge
applies the override after the transition check. -/
def overrideResp : StatusResponse :=
  { status := some "offline", last_seen := none, instances := none
    device_info := some { status := some "online", lastSeen := none, instances := none }
    error := none }

/-- A status response reporting the device online without any
last_seen value. -/
def noLastSeenResp : StatusResponse :=
  { status := some "online", last_seen := none, instances := some []
    device_info := none, error := none }

/-- A command response body with no optional fields. -/
def cmdRespEmpty : CmdResponse :=
  { error := none, download_url := none, filename := none
    clients := none, payloads := none }

/-- Per-device fetch outcomes in which the keylogger request fails with
a non-2xx response and the others succeed. -/
def outcomesKeyloggerFails : DeviceKey → FetchOutcome
  | .keylogger => .httpErr "Service Unavailable"
  | _ => .ok onlineResp

/- ---------------------------------------------------------------- -/
/- Helper lemmas                                                     -/
/- ---------------------------------------------------------------- -/

theorem addLog_eq_take (logs : List LogEntry) (e : LogEntry) :
    addLog logs e = (e :: logs).take CONFIG.logMaxEntries := by
  unfold addLog
  show (if CONFIG.logMaxEntries < (e :: logs).length then (e :: logs).take CONFIG.logMaxEntries
        else (e :: logs)) = (e :: logs).take CONFIG.logMaxEntries
  split
  · rfl
  · next h =>
    rw [List.take_of_length_le (by omega)]

theorem take_append_take {α : Type} (a b : List α) (m : Nat) :
    (a ++ b.take m).take m = (a ++ b).take m := by
  rw [List.take_append_eq_append_take, List.take_append_eq_append_take, List.take_take]
  rw [Nat.min_eq_left (Nat.sub_le _ _)]

theorem foldl_addLog_closed_form (es : List LogEntry) :
    ∀ start : List LogEntry, start.length ≤ CONFIG.logMaxEntries →
      es.foldl addLog start = (es.reverse ++ start).take CONFIG.logMaxEntries := by
  induction es with
  | nil =>
    intro start h
    simp [List.take_of_length_le h]
  | cons e es ih =>
    intro start h
    have hlen : (addLog start e).length ≤ CONFIG.logMaxEntries := by
      rw [addLog_eq_take]
      exact le_trans (List.length_take_le _ _) (le_refl _)
    calc List.foldl addLog start (e :: es)
        = List.foldl addLog (addLog start e) es := by rw [List.foldl_cons]
      _ = (es.reverse ++ addLog start e).take CONFIG.logMaxEntries := ih _ hlen
      _ = (es.reverse ++ (e :: start).take CONFIG.logMaxEntries).take CONFIG.logMaxEntries := by
            rw [addLog_eq_take]
      _ = (es.reverse ++ (e :: start)).take CONFIG.logMaxEntries := take_append_take _ _ _
      _ = ((e :: es).reverse ++ start).take CONFIG.logMaxEntries := by
            rw [List.reverse_cons, List.append_assoc]
            rfl

theorem head?_take_cons (x : LogEntry) (l : List LogEntry) :
    ((x :: l).take CONFIG.logMaxEntries).head? = some x := by
  rw [show CONFIG.logMaxEntries = 99 + 1 from rfl, List.take_succ_cons]
  rfl

/- ---------------------------------------------------------------- -/
/- Claim theorems                                                    -/
/- ---------------------------------------------------------------- -/

/-- Claim C8: after any sequence of addLog insertions starting from a
log within capacity, the log holds at most CONFIG.logMaxEntries
entries, equals the newest-first prefix of all entries (each insertion
prepends, eviction drops the oldest from the tail), and the most
recently inserted entry is first. -/
theorem addLog_bounded_newest_first (es start : List LogEntry)
    (h : start.length ≤ CONFIG.logMaxEntries) :
    (es.foldl addLog start).length ≤ CONFIG.logMaxEntries
    ∧ es.foldl addLog start = (es.reverse ++ start).take CONFIG.logMaxEntries
    ∧ (∀ e l, addLog l e = (e :: l).take CONFIG.logMaxEntries)
    ∧ (∀ e, es.getLast? = some e → (es.foldl addLog start).head? = some e) := by
  have hcf := foldl_addLog_closed_form es start h
  refine ⟨?_, hcf, fun e l => addLog_eq_take l e, fun e he => ?_⟩
  · rw [hcf]
    exact le_trans (List.length_take_le _ _) (le_refl _)
  · rw [hcf]
    have hrev : es.reverse.head? = some e := by
      rw [List.head?_reverse]
      exact he
    match hr : es.reverse with
    | [] => rw [hr] at hrev; simp at hrev
    | x :: t =>
      rw [hr] at hrev
      simp only [List.head?_cons, Option.some.injEq] at hrev
      rw [List.cons_append]
      rw [hrev] at *
      exact head?_take_cons e (t ++ start)

/-- Witness for claim C8 at a concrete run: 101 insertions into an
empty log. -/
theorem addLog_bounded_newest_first_witness :
    ([] : List LogEntry).length ≤ CONFIG.logMaxEntries
    ∧ (((List.replicate 101 logEntryA).foldl addLog []).length ≤ CONFIG.logMaxEntries
      ∧ (List.replicate 101 logEntryA).foldl addLog [] =
          ((List.replicate 101 logEntryA).reverse ++ []).take CONFIG.logMaxEntries
      ∧ (∀ e l, addLog l e = (e :: l).take CONFIG.logMaxEntries)
      ∧ (∀ e, (List.replicate 101 logEntryA).getLast? = some e →
          ((List.replicate 101 logEntryA).foldl addLog []).head? = some e)) :=
  ⟨by decide, addLog_bounded_newest_first (List.replicate 101 logEntryA) [] (by decide)⟩

/-- Claim C1, counterexample: with the master already connected, a
further successful probe still records the connection-established log
entry, so an unchanged probe outcome does produce a connection log
entry, contradicting once-per-transition logging. -/
theorem checkMasterConnection_logs_on_unchanged_state :
    connectedState.masterStatus = "connected"
    ∧ (checkMasterConnection connectedState HealthOutcome.success).2.1.masterStatus = "connected"
    ∧ (checkMasterConnection connectedState HealthOutcome.success).2.2 =
        [{ message := "Master device connection established", type := "success" }] :=
  ⟨rfl, rfl, rfl⟩

/-- Claim C1, amended: checkMasterConnection records exactly one
connection log entry on every probe, success or failure, regardless of
the previous connection state (once per poll, not once per
transition), while setting masterStatus from the probe outcome and
returning the outcome as a boolean. -/
theorem checkMasterConnection_logs_once_per_probe (st : AppState) (m : String) :
    checkMasterConnection st HealthOutcome.success =
      (true, { st with masterStatus := "connected" },
        [{ message := "Master device connection established", type := "success" }])
    ∧ checkMasterConnection st (HealthOutcome.failure m) =
      (false, { st with masterStatus := "disconnected" },
        [{ message := "Master device connection failed: " ++ m, type := "error" }]) :=
  ⟨rfl, rfl⟩

/-- Claim C2, counterexample: processing a response whose top-level
status equals the stored status but whose device_info overrides the
status afterwards, the bulk sync moves the device from offline to
online while emitting zero log entries, contradicting one-entry-per-
transition. -/
theorem sync_transition_unlogged_with_device_info :
    (initDeviceData DeviceKey.keylogger).status = "offline"
    ∧ (updateDeviceFromStatus (initDeviceData DeviceKey.keylogger) overrideResp).1.status = "online"
    ∧ (updateDeviceFromStatus (initDeviceData DeviceKey.keylogger) overrideResp).2 = [] := by
  refine ⟨rfl, rfl, ?_⟩
  decide

/-- Claim C2, amended: for both sync paths, each change of the primary
fetched status (the top-level status field, defaulted to offline)
against the stored status produces exactly one log entry, with
severity success when the new status is online and warning otherwise,
and an unchanged primary status produces none; when the response
carries no device_info, the stored status after the bulk sync is
exactly that primary status (so the logged transitions then coincide
with the stored ones), while a device_info status key is applied after
the check and can change the stored status without a log entry. -/
theorem status_transition_logged_once (d : DeviceRecord) (resp : StatusResponse) :
    (d.status ≠ strOr resp.status "offline" →
      (updateDeviceFromStatus d resp).2 =
        [{ message := d.name ++ ": Status changed from " ++ d.status ++ " to " ++
                      strOr resp.status "offline"
           type := if strOr resp.status "offline" = "online" then "success" else "warning" }])
    ∧ (d.status = strOr resp.status "offline" → (updateDeviceFromStatus d resp).2 = [])
    ∧ (resp.device_info = none →
        (updateDeviceFromStatus d resp).1.status = strOr resp.status "offline")
    ∧ (d.status ≠ strOr resp.status "offline" →
      (refreshApply d resp).2 =
        [{ message := d.name ++ ": Status updated to " ++ strOr resp.status "offline"
           type := if strOr resp.status "offline" = "online" then "success" else "warning" }])
    ∧ (d.status = strOr resp.status "offline" → (refreshApply d resp).2 = [])
    ∧ (refreshApply d resp).1.status = strOr resp.status "offline" := by
  refine ⟨fun h => by simp [updateDeviceFromStatus, h],
    fun h => by simp [updateDeviceFromStatus, h],
    fun h => by simp [updateDeviceFromStatus, h],
    fun h => by simp [refreshApply, h],
    fun h => by simp [refreshApply, h],
    by simp [refreshApply]⟩

/-- Witness for claim C2 at a concrete transition: the keylogger goes
from offline to online and exactly one success entry is produced. -/
theorem status_transition_logged_once_witness :
    (initDeviceData DeviceKey.keylogger).status ≠ strOr onlineResp.status "offline"
    ∧ (updateDeviceFromStatus (initDeviceData DeviceKey.keylogger) onlineResp).2 =
        [{ message := (initDeviceData DeviceKey.keylogger).name ++ ": Status changed from " ++
                      (initDeviceData DeviceKey.keylogger).status ++ " to " ++
                      strOr onlineResp.status "offline"
           type := if strOr onlineResp.status "offline" = "online" then "success"
                   else "warning" }] :=
  ⟨by decide, (status_transition_logged_once (initDeviceData DeviceKey.keylogger) onlineResp).1
    (by decide)⟩

/-- Claim C3: after a status merge, a device's instances field equals
the instance list carried by the fetched response as the merge applies
it (the device_info instances key when present, otherwise the top-level
instances field, otherwise the empty list), a pure function of the
response alone, so no previously stored instance entries are retained,
merged, or appended; refreshSingleDevice likewise replaces instances
with the fetched top-level list or the empty list; a response carrying
no instance list yields the empty list. -/
theorem instances_fully_replaced (d : DeviceRecord) (resp : StatusResponse) :
    (updateDeviceFromStatus d resp).1.instances = fetchedInstances resp
    ∧ (refreshApply d resp).1.instances = resp.instances.getD []
    ∧ (resp.instances = none → Option.bind resp.device_info DeviceInfo.instances = none →
        fetchedInstances resp = []) := by
  refine ⟨?_, by simp [refreshApply], fun h1 h2 => ?_⟩
  · cases hdi : resp.device_info with
    | none => simp [updateDeviceFromStatus, fetchedInstances, hdi]
    | some di => simp [updateDeviceFromStatus, fetchedInstances, hdi]
  · cases hdi : resp.device_info with
    | none => simp [fetchedInstances, hdi, h1]
    | some di =>
      rw [hdi] at h2
      simp [fetchedInstances, hdi, h1, show di.instances = none from h2]

/-- Witness for claim C3 at concrete inputs: a fetched empty instance
list fully replaces the stored instances, and a response carrying no
instances yields the empty list. -/
theorem instances_fully_replaced_witness :
    (updateDeviceFromStatus (initDeviceData DeviceKey.ethernet_tap) onlineResp).1.instances =
      fetchedInstances onlineResp
    ∧ (overrideResp.instances = none
      ∧ Option.bind overrideResp.device_info DeviceInfo.instances = none
      ∧ fetchedInstances overrideResp = []) :=
  ⟨(instances_fully_replaced (initDeviceData DeviceKey.ethernet_tap) onlineResp).1,
   ⟨rfl, rfl,
    (instances_fully_replaced (initDeviceData DeviceKey.ethernet_tap) overrideResp).2.2 rfl rfl⟩⟩

/-- Claim C4: when the master is connected, getAllDevicesStatus
completes (returning true; every per-request failure is caught inside
the request map, so nothing escapes), each device's resulting record is
a function of that device's own fetch outcome alone (a failure for one
device cannot affect the others), and a failed fetch yields the
synthetic offline result carrying the failure reason in its error
field, leaving the device's status offline; masterStatus is untouched. -/
theorem syncAll_failures_isolated (st : AppState) (outcomes : DeviceKey → FetchOutcome)
    (hm : st.masterStatus = "connected") :
    (getAllDevicesStatus st outcomes).1 = true
    ∧ (∀ j, (getAllDevicesStatus st outcomes).2.1.deviceData j =
        (updateDeviceFromStatus (st.deviceData j) (statusResultFor (outcomes j)).1).1)
    ∧ (∀ k reason,
        (outcomes k = FetchOutcome.httpErr reason ∨ outcomes k = FetchOutcome.netErr reason) →
        (statusResultFor (outcomes k)).1.error = some reason
        ∧ ((getAllDevicesStatus st outcomes).2.1.deviceData k).status = "offline")
    ∧ (getAllDevicesStatus st outcomes).2.1.masterStatus = st.masterStatus := by
  have hif : ¬(st.masterStatus ≠ "connected") := by simp [hm]
  have hdev : ∀ j, (getAllDevicesStatus st outcomes).2.1.deviceData j =
      (updateDeviceFromStatus (st.deviceData j) (statusResultFor (outcomes j)).1).1 := by
    intro j
    unfold getAllDevicesStatus
    rw [if_neg hif]
    cases j <;> simp [deviceKeys, setDevice]
  refine ⟨?_, hdev, fun k reason h => ?_, ?_⟩
  · unfold getAllDevicesStatus
    rw [if_neg hif]
  · have hsyn : (statusResultFor (outcomes k)).1 = statusFailureResponse reason := by
      cases h with
      | inl h1 => rw [h1]; rfl
      | inr h2 => rw [h2]; rfl
    refine ⟨by rw [hsyn]; rfl, ?_⟩
    rw [hdev k, hsyn]
    simp [updateDeviceFromStatus, statusFailureResponse, strOr]
  · unfold getAllDevicesStatus
    rw [if_neg hif]

/-- Witness for claim C4 at a concrete run: the keylogger fetch fails
with a non-2xx response while the other devices succeed. -/
theorem syncAll_failures_isolated_witness :
    connectedState.masterStatus = "connected"
    ∧ ((getAllDevicesStatus connectedState outcomesKeyloggerFails).1 = true
      ∧ (∀ j, (getAllDevicesStatus connectedState outcomesKeyloggerFails).2.1.deviceData j =
          (updateDeviceFromStatus (connectedState.deviceData j)
            (statusResultFor (outcomesKeyloggerFails j)).1).1)
      ∧ (∀ k reason,
          (outcomesKeyloggerFails k = FetchOutcome.httpErr reason
            ∨ outcomesKeyloggerFails k = FetchOutcome.netErr reason) →
          (statusResultFor (outcomesKeyloggerFails k)).1.error = some reason
          ∧ ((getAllDevicesStatus connectedState outcomesKeyloggerFails).2.1.deviceData k).status =
              "offline")
      ∧ (getAllDevicesStatus connectedState outcomesKeyloggerFails).2.1.masterStatus =
          connectedState.masterStatus) :=
  ⟨rfl, syncAll_failures_isolated connectedState outcomesKeyloggerFails rfl⟩

/-- Claim C5: when the master is not connected, sendDeviceCommand
returns the NotConnected failure (a non-success value), issues no
network request, records the failure in the log (the direct error entry
and the notification entry), and leaves the whole state, in particular
the device registry, unchanged. -/
theorem sendCommand_not_connected (st : AppState) (dt cmd : String) (pe : Bool)
    (o : CmdOutcome) (h : st.masterStatus ≠ "connected") :
    (sendDeviceCommand st dt cmd pe o).ret = CmdResult.notConnected
    ∧ (sendDeviceCommand st dt cmd pe o).ret.isSuccess = false
    ∧ (sendDeviceCommand st dt cmd pe o).requestSent = false
    ∧ (sendDeviceCommand st dt cmd pe o).events =
        [{ message := "Cannot send command: Master device not connected", type := "error" },
         { message := "Master device not connected", type := "error" }]
    ∧ (sendDeviceCommand st dt cmd pe o).state = st := by
  unfold sendDeviceCommand
  rw [if_pos h]
  exact ⟨rfl, rfl, rfl, rfl, rfl⟩

/-- Witness for claim C5 at the initial (disconnected) state. -/
theorem sendCommand_not_connected_witness :
    initialState.masterStatus ≠ "connected"
    ∧ ((sendDeviceCommand initialState "keylogger" "start_logging" true
          (CmdOutcome.netThrow "unreachable")).ret = CmdResult.notConnected
      ∧ (sendDeviceCommand initialState "keylogger" "start_logging" true
          (CmdOutcome.netThrow "unreachable")).ret.isSuccess = false
      ∧ (sendDeviceCommand initialState "keylogger" "start_logging" true
          (CmdOutcome.netThrow "unreachable")).requestSent = false
      ∧ (sendDeviceCommand initialState "keylogger" "start_logging" true
          (CmdOutcome.netThrow "unreachable")).events =
          [{ message := "Cannot send command: Master device not connected", type := "error" },
           { message := "Master device not connected", type := "error" }]
      ∧ (sendDeviceCommand initialState "keylogger" "start_logging" true
          (CmdOutcome.netThrow "unreachable")).state = initialState) :=
  ⟨by decide,
   sendCommand_not_connected initialState "keylogger" "start_logging" true
    (CmdOutcome.netThrow "unreachable") (by decide)⟩

/-- Claim C6: with the master connected, a command outside the
refresh/reconnect allowlist sent to a known device whose status is not
online returns the DeviceOffline failure (non-success), issues no
network request, records a warning log entry (the direct warning and
the notification warning), and leaves the state unchanged. -/
theorem sendCommand_device_offline (st : AppState) (dt cmd : String) (pe : Bool)
    (o : CmdOutcome) (k : DeviceKey)
    (hm : st.masterStatus = "connected") (hk : lookupDevice dt = some k)
    (hs : (st.deviceData k).status ≠ "online")
    (h1 : cmd ≠ "refresh") (h2 : cmd ≠ "reconnect") :
    (sendDeviceCommand st dt cmd pe o).ret = CmdResult.deviceOffline
    ∧ (sendDeviceCommand st dt cmd pe o).ret.isSuccess = false
    ∧ (sendDeviceCommand st dt cmd pe o).requestSent = false
    ∧ (sendDeviceCommand st dt cmd pe o).busySet = false
    ∧ (sendDeviceCommand st dt cmd pe o).events =
        [{ message := "Cannot send " ++ cmd ++ " to " ++ (st.deviceData k).name ++
                      ": Device is offline"
           type := "warning" },
         { message := (st.deviceData k).name ++ " is offline", type := "warning" }]
    ∧ (sendDeviceCommand st dt cmd pe o).state = st := by
  simp [sendDeviceCommand, CmdResult.isSuccess, hm, hk, hs, h1, h2]

/-- Witness for claim C6 at a concrete call: start_logging sent to the
offline keylogger while connected. -/
theorem sendCommand_device_offline_witness :
    (connectedState.masterStatus = "connected"
      ∧ lookupDevice "keylogger" = some DeviceKey.keylogger
      ∧ (connectedState.deviceData DeviceKey.keylogger).status ≠ "online")
    ∧ ((sendDeviceCommand connectedState "keylogger" "start_logging" true
          (CmdOutcome.netThrow "x")).ret = CmdResult.deviceOffline
      ∧ (sendDeviceCommand connectedState "keylogger" "start_logging" true
          (CmdOutcome.netThrow "x")).requestSent = false
      ∧ (sendDeviceCommand connectedState "keylogger" "start_logging" true
          (CmdOutcome.netThrow "x")).state = connectedState) :=
  ⟨⟨rfl, rfl, by decide⟩,
   ⟨(sendCommand_device_offline connectedState "keylogger" "start_logging" true
      (CmdOutcome.netThrow "x") DeviceKey.keylogger rfl rfl (by decide) (by decide)
      (by decide)).1,
    (sendCommand_device_offline connectedState "keylogger" "start_logging" true
      (CmdOutcome.netThrow "x") DeviceKey.keylogger rfl rfl (by decide) (by decide)
      (by decide)).2.2.1,
    (sendCommand_device_offline connectedState "keylogger" "start_logging" true
      (CmdOutcome.netThrow "x") DeviceKey.keylogger rfl rfl (by decide) (by decide)
      (by decide)).2.2.2.2.2⟩⟩

/-- Claim C9, counterexample: toString is not a key of the registry,
yet sendDeviceCommand with deviceType toString and the allowlisted
command refresh, while connected, issues the network request and
records the dispatch and catch entries instead of the claimed
unknown-device error entry — the inherited Object.prototype member is
truthy, so the falsiness check of the source does not fire. -/
theorem sendCommand_inherited_name_issues_request :
    lookupDevice "toString" = none
    ∧ (sendDeviceCommand connectedState "toString" "refresh" true
        (CmdOutcome.netThrow "fail")).requestSent = true
    ∧ (sendDeviceCommand connectedState "toString" "refresh" true
        (CmdOutcome.netThrow "fail")).ret = CmdResult.commandFailed
    ∧ (sendDeviceCommand connectedState "toString" "refresh" true
        (CmdOutcome.netThrow "fail")).events =
        [{ message := "Sending refresh command to toString", type := "info" },
         { message := "toString: refresh failed - fail", type := "error" },
         { message := "Command failed: fail", type := "error" }] := by
  refine ⟨by decide, by decide, by decide, ?_⟩
  decide

/-- Claim C9, amended: with the master connected, a deviceType that is
neither a key of the registry nor the name of a member deviceData
inherits from Object.prototype (so the registry lookup is falsy) makes
sendDeviceCommand record the unknown-device error entry, issue no
network request, and return a non-success value, leaving the state
(registry included) unchanged; for an inherited member name the
existence check passes and the string is treated as a device instead. -/
theorem sendCommand_unknown_device (st : AppState) (dt cmd : String) (pe : Bool)
    (o : CmdOutcome) (hm : st.masterStatus = "connected")
    (hk : lookupDevice dt = none) (hinh : inheritedMember dt = false) :
    (sendDeviceCommand st dt cmd pe o).ret = CmdResult.unknownDevice
    ∧ (sendDeviceCommand st dt cmd pe o).ret.isSuccess = false
    ∧ (sendDeviceCommand st dt cmd pe o).requestSent = false
    ∧ (sendDeviceCommand st dt cmd pe o).events =
        [{ message := "Unknown device type: " ++ dt, type := "error" }]
    ∧ (sendDeviceCommand st dt cmd pe o).state = st := by
  simp [sendDeviceCommand, CmdResult.isSuccess, hm, hk, hinh]

/-- Witness for claim C9 at a concrete call with a deviceType string
that is neither a registry key nor an inherited member name. -/
theorem sendCommand_unknown_device_witness :
    (connectedState.masterStatus = "connected" ∧ lookupDevice "toaster" = none
      ∧ inheritedMember "toaster" = false)
    ∧ ((sendDeviceCommand connectedState "toaster" "start_logging" true
          (CmdOutcome.netThrow "x")).ret = CmdResult.unknownDevice
      ∧ (sendDeviceCommand connectedState "toaster" "start_logging" true
          (CmdOutcome.netThrow "x")).requestSent = false
      ∧ (sendDeviceCommand connectedState "toaster" "start_logging" true
          (CmdOutcome.netThrow "x")).events =
          [{ message := "Unknown device type: " ++ "toaster", type := "error" }]
      ∧ (sendDeviceCommand connectedState "toaster" "start_logging" true
          (CmdOutcome.netThrow "x")).state = connectedState) :=
  ⟨⟨rfl, by decide, by decide⟩,
   ⟨(sendCommand_unknown_device connectedState "toaster" "start_logging" true
      (CmdOutcome.netThrow "x") rfl (by decide) (by decide)).1,
    (sendCommand_unknown_device connectedState "toaster" "start_logging" true
      (CmdOutcome.netThrow "x") rfl (by decide) (by decide)).2.2.1,
    (sendCommand_unknown_device connectedState "toaster" "start_logging" true
      (CmdOutcome.netThrow "x") rfl (by decide) (by decide)).2.2.2.1,
    (sendCommand_unknown_device connectedState "toaster" "start_logging" true
      (CmdOutcome.netThrow "x") rfl (by decide) (by decide)).2.2.2.2⟩⟩

/-- Claim C7: whenever sendDeviceCommand sets the loading marker of the
target device (it reached dispatch and the device page exists), the
marker is false in the final state for every fetch outcome: HTTP
success, HTTP failure, body-parse failure, transport error, and the
cases in which the response handler or the refresh scheduling throws —
the finally branch clears it on every path. -/
theorem sendCommand_clears_busy (st : AppState) (dt cmd : String) (pe : Bool)
    (o : CmdOutcome) (k : DeviceKey)
    (hb : (sendDeviceCommand st dt cmd pe o).busySet = true)
    (ht : (sendDeviceCommand st dt cmd pe o).target = some k) :
    (sendDeviceCommand st dt cmd pe o).state.busy k = false := by
  by_cases hc : st.masterStatus ≠ "connected"
  · simp [sendDeviceCommand, hc] at hb
  · cases hl : lookupDevice dt with
    | none => simp [sendDeviceCommand, hc, hl, apply_ite SendResult.busySet] at hb
    | some j =>
      by_cases hoff : ¬(st.deviceData j).status = "online" ∧ ¬cmd = "refresh" ∧ ¬cmd = "reconnect"
      · simp [sendDeviceCommand, hc, hl, hoff] at hb
      · have hpe : pe = true := by
          simpa [sendDeviceCommand, hc, hl, hoff] using hb
        have hjk : j = k := by
          simpa [sendDeviceCommand, hc, hl, hoff] using ht
        subst hjk
        subst hpe
        simp [sendDeviceCommand, hc, hl, hoff, setBusy]

/-- Witness for claim C7 at a concrete call in which the HTTP request
succeeds but the response handler throws. -/
theorem sendCommand_clears_busy_witness :
    ((sendDeviceCommand connectedState "keylogger" "refresh" true
        (CmdOutcome.ok cmdRespEmpty (some "handler failed") none)).busySet = true
      ∧ (sendDeviceCommand connectedState "keylogger" "refresh" true
          (CmdOutcome.ok cmdRespEmpty (some "handler failed") none)).target =
          some DeviceKey.keylogger)
    ∧ (sendDeviceCommand connectedState "keylogger" "refresh" true
        (CmdOutcome.ok cmdRespEmpty (some "handler failed") none)).state.busy
        DeviceKey.keylogger = false :=
  ⟨⟨by decide, by decide⟩,
   sendCommand_clears_busy connectedState "keylogger" "refresh" true
    (CmdOutcome.ok cmdRespEmpty (some "handler failed") none) DeviceKey.keylogger
    (by decide) (by decide)⟩

/-- Claim C10: a status merge leaves lastSeen unchanged unless the
response supplies a replacement (a truthy top-level last_seen, or for
the bulk sync a lastSeen key in device_info), and conversely lastSeen
changes only when such a value is supplied; the synthetic responses
built for failed fetches supply none, and refreshSingleDevice leaves
the whole state untouched on a failed fetch, so a device that goes
offline keeps its last confirmed liveness timestamp. -/
theorem lastSeen_preserved (d : DeviceRecord) (resp : StatusResponse) (r : String)
    (st : AppState) (dt : String) :
    (suppliesLastSeen resp = false →
      (updateDeviceFromStatus d resp).1.lastSeen = d.lastSeen)
    ∧ ((updateDeviceFromStatus d resp).1.lastSeen ≠ d.lastSeen →
      suppliesLastSeen resp = true)
    ∧ (truthyStr resp.last_seen = false → (refreshApply d resp).1.lastSeen = d.lastSeen)
    ∧ ((refreshApply d resp).1.lastSeen ≠ d.lastSeen → truthyStr resp.last_seen = true)
    ∧ suppliesLastSeen (statusResultFor (FetchOutcome.httpErr r)).1 = false
    ∧ suppliesLastSeen (statusResultFor (FetchOutcome.netErr r)).1 = false
    ∧ (refreshSingleDevice st dt (FetchOutcome.httpErr r)).2.1 = st
    ∧ (refreshSingleDevice st dt (FetchOutcome.netErr r)).2.1 = st := by
  have hsync : suppliesLastSeen resp = false →
      (updateDeviceFromStatus d resp).1.lastSeen = d.lastSeen := by
    intro h
    rw [suppliesLastSeen, Bool.or_eq_false_iff] at h
    cases hdi : resp.device_info with
    | none => simp [updateDeviceFromStatus, hdi, h.1]
    | some di =>
      have hdls : di.lastSeen.isSome = false := by
        have := h.2
        rw [hdi] at this
        simpa using this
      simp [updateDeviceFromStatus, hdi, h.1, hdls]
  have hrefresh : truthyStr resp.last_seen = false →
      (refreshApply d resp).1.lastSeen = d.lastSeen := by
    intro h
    simp [refreshApply, h]
  refine ⟨hsync, ?_, hrefresh, ?_, rfl, rfl, ?_, ?_⟩
  · intro hne
    cases hsp : suppliesLastSeen resp with
    | true => rfl
    | false => exact absurd (hsync hsp) hne
  · intro hne
    cases hsp : truthyStr resp.last_seen with
    | true => rfl
    | false => exact absurd (hrefresh hsp) hne
  · cases hl : lookupDevice dt <;> simp [refreshSingleDevice, hl]
  · cases hl : lookupDevice dt <;> simp [refreshSingleDevice, hl]

/-- Witness for claim C10 at concrete inputs: a response with no
last_seen leaves the keylogger lastSeen untouched, and the synthetic
failure response supplies none. -/
theorem lastSeen_preserved_witness :
    suppliesLastSeen noLastSeenResp = false
    ∧ (updateDeviceFromStatus (initDeviceData DeviceKey.keylogger) noLastSeenResp).1.lastSeen =
        (initDeviceData DeviceKey.keylogger).lastSeen
    ∧ suppliesLastSeen (statusResultFor (FetchOutcome.httpErr "Gateway Timeout")).1 = false
    ∧ (refreshSingleDevice connectedState "keylogger"
        (FetchOutcome.httpErr "Gateway Timeout")).2.1 = connectedState :=
  ⟨by decide,
   (lastSeen_preserved (initDeviceData DeviceKey.keylogger) noLastSeenResp "Gateway Timeout"
      connectedState "keylogger").1 (by decide),
   (lastSeen_preserved (initDeviceData DeviceKey.keylogger) noLastSeenResp "Gateway Timeout"
      connectedState "keylogger").2.2.2.2.1,
   (lastSeen_preserved (initDeviceData DeviceKey.keylogger) noLastSeenResp "Gateway Timeout"
      connectedState "keylogger").2.2.2.2.2.2.1⟩

end ControlPanel
